import Mathlib

/-!
# Protest Tracker API — shallow embedding and verification

This file embeds, in Lean, the data model and the request handlers of the
protest-tracker server (an Express + Postgres application that exists in the
repository in several near-duplicate snapshots), and proves or refutes the
frozen claims about it.

Conventions of the embedding:

* A database table is a `List` of row structures; `SERIAL` ids are modelled by
  a `next…Id` counter carried in the state.
* Nullable SQL columns are `Option` fields; `NOT NULL` columns are plain fields.
* `DATE` and `TIME` columns are modelled as `Nat` (abstract day / second
  counts); SQL orders these columns chronologically, which the `Nat` order
  mirrors.
* `NUMERIC(10,7)` coordinates are modelled as `Rat`.
* JavaScript truthiness checks on request-body strings (`!name`) are modelled
  by `strFalsy`: a field is falsy when it is absent or the empty string.
* The external collaborators bcrypt (`hash`, `compare`) and jsonwebtoken
  (`sign`) are parameters of the handlers, exactly as the spec treats them
  (external functions `hash(secret) -> digest`, `compare(secret, digest) ->
  bool`, `sign(claims) -> token`).
* Each handler is a pure function from the database state (plus its request
  data) to a new state and a response value; handlers that only read return
  the state unchanged, mirroring the fact that they issue no SQL writes.
-/

namespace ProtestTracker

/-! ## Schema initialization (src/api/db.js, src/unnamed/part_000, part_003)

`initializeDatabase` / `initializeDb` connects and runs the two
`CREATE TABLE IF NOT EXISTS` statements; it either succeeds or throws.  Its
outcome in a fixed environment is a value of `InitOutcome`.  The memo variable
`dbInitializationPromise` / `initializationPromise` starts out `null` and is
assigned the (settled) promise on the first call of `ensureDbReady` /
`ensureDbIsReady`; we model the memo cell as an `Option InitOutcome`. -/

/-- Outcome of the create-tables-if-absent routine: success, or a failure
carrying the error message. -/
inductive InitOutcome where
  | success : InitOutcome
  | failure : String → InitOutcome
deriving DecidableEq, Repr

/-- One call of `ensureDbReady`: if the memo cell is empty the initialization
routine runs (its outcome in the current environment is `ini`) and is stored;
otherwise the cached outcome is returned.  The `Bool` component records
whether the initialization routine actually executed during this call. -/
def ensureDbReady (ini : InitOutcome) (memo : Option InitOutcome) :
    Option InitOutcome × InitOutcome × Bool :=
  match memo with
  | none => (some ini, ini, true)
  | some o => (some o, o, false)

/-- A sequence of `n` calls of `ensureDbReady` starting from memo state
`memo`.  Returns the final memo cell, the list of outcomes observed by the
callers (in order), and how many times the initialization routine executed. -/
def ensureCalls (ini : InitOutcome) : Nat → Option InitOutcome →
    Option InitOutcome × List InitOutcome × Nat
  | 0, memo => (memo, [], 0)
  | n + 1, memo =>
    let step := ensureDbReady ini memo
    let rest := ensureCalls ini n step.1
    (rest.1, step.2.1 :: rest.2.1, (if step.2.2 then 1 else 0) + rest.2.2)

/-! ## Data model (tables created by src/api/db.js and src/unnamed/part_000)

`organizers(id, name, email UNIQUE, password_hash, bio, followers DEFAULT 0,
social_clicks DEFAULT 0, created_at)` and
`protests(id, organizer_id, name, cause, description, location, latitude,
longitude, date, time, official_link, tags, likes DEFAULT 0, created_at)`.
The `created_at` columns are never read by any handler and are omitted. -/

/-- A row of the `organizers` table. -/
structure Organizer where
  id : Nat
  name : String
  email : String
  password_hash : String
  bio : Option String
  followers : Int
  social_clicks : Int
deriving DecidableEq, Repr

/-- A row of the `protests` table.  `name`, `date`, `time` are `NOT NULL`;
the remaining descriptive columns are nullable. -/
structure Protest where
  id : Nat
  organizer_id : Option Nat
  name : String
  cause : Option String
  description : Option String
  location : Option String
  latitude : Option Rat
  longitude : Option Rat
  date : Nat
  time : Nat
  official_link : Option String
  tags : Option (List String)
  likes : Int
deriving DecidableEq, Repr

/-- The database state seen by the handlers of src/unnamed/part_001 and
part_003: the two tables plus the next `SERIAL` values. -/
structure DbState where
  organizers : List Organizer
  protests : List Protest
  nextOrganizerId : Nat
  nextProtestId : Nat
deriving DecidableEq, Repr

/-- JavaScript falsiness of an optional request-body string: absent or
empty.  (`!name` in the handlers.) -/
def strFalsy (o : Option String) : Bool :=
  match o with
  | none => true
  | some s => s == ""

/-- The row set of `SELECT * FROM protests WHERE id = pid`, as a list. -/
def protestRows (s : DbState) (pid : Nat) : List Protest :=
  s.protests.filter (fun p => p.id == pid)

/-- `rows[0]` of the protest row set, when present. -/
def lookupProtest (s : DbState) (pid : Nat) : Option Protest :=
  (protestRows s pid).head?

/-- The row set of `SELECT * FROM organizers WHERE id = oid`. -/
def organizerRows (s : DbState) (oid : Nat) : List Organizer :=
  s.organizers.filter (fun o => o.id == oid)

/-- `rows[0]` of the organizer row set, when present. -/
def lookupOrganizer (s : DbState) (oid : Nat) : Option Organizer :=
  (organizerRows s oid).head?

/-! ## Like / Follow handlers (src/unnamed/part_001, first snapshot)

`POST /api/protests/:id/like` runs
`UPDATE protests SET likes = GREATEST(0, likes + $1) WHERE id = $2 RETURNING likes`
with `$1 = liked ? 1 : -1`, answering 404 when the returned row set is empty
and `{ likes }` otherwise.  `POST /api/organizers/:id/follow` is the same
statement on `organizers.followers`. -/

/-- Response of the like / follow handlers: `200 { count }` or `404`. -/
inductive CounterResult where
  | ok : Int → CounterResult
  | notFound : CounterResult
deriving DecidableEq, Repr

/-- HTTP status of a `CounterResult`. -/
def CounterResult.status : CounterResult → Nat
  | .ok _ => 200
  | .notFound => 404

/-- The `$1` parameter of the like statement: `liked ? 1 : -1`. -/
def likeDelta (liked : Bool) : Int := if liked then 1 else -1

/-- `POST /api/protests/:id/like`: the update statement always runs (it
touches the rows matching the `WHERE` clause); the response is 404 when the
`RETURNING` row set is empty and `{ likes }` otherwise. -/
def likeProtest (s : DbState) (pid : Nat) (liked : Bool) :
    DbState × CounterResult :=
  let updated := s.protests.map (fun p =>
    if p.id == pid then { p with likes := max 0 (p.likes + likeDelta liked) } else p)
  ({ s with protests := updated },
    match (updated.filter (fun p => p.id == pid)).head? with
    | none => .notFound
    | some row => .ok row.likes)

/-- `POST /api/organizers/:id/follow`. -/
def followOrganizer (s : DbState) (oid : Nat) (following : Bool) :
    DbState × CounterResult :=
  let updated := s.organizers.map (fun o =>
    if o.id == oid then { o with followers := max 0 (o.followers + likeDelta following) } else o)
  ({ s with organizers := updated },
    match (updated.filter (fun o => o.id == oid)).head? with
    | none => .notFound
    | some row => .ok row.followers)

/-! ## Update / Delete handlers (src/unnamed/part_001)

The first snapshot (`PUT /api/protests/:id`, lines 175-203, and
`DELETE /api/protests/:id`, lines 206-226) first runs
`SELECT organizer_id FROM protests WHERE id = $1`; an empty row set answers
404, a row whose `organizer_id !== req.user.id` answers 403; otherwise the
row is overwritten (or deleted).

The second snapshot (lines 449-465) instead runs a single conditional
statement `UPDATE … WHERE id=$11 AND organizer_id=$12 RETURNING *` and
answers 404 whenever the returned row set is empty — for a missing row and
for a non-owner alike. -/

/-- The editable protest fields carried by the update request body in the
first snapshot (tags arrive as a pre-split array, possibly absent). -/
structure ProtestFields where
  name : String
  cause : Option String
  description : Option String
  location : Option String
  latitude : Option Rat
  longitude : Option Rat
  date : Nat
  time : Nat
  official_link : Option String
  tags : Option (List String)
deriving DecidableEq, Repr

/-- The `SET` clause of the first snapshot's update: every editable column is
overwritten (`tags` with `tags || []`); `id`, `organizer_id`, `likes` keep
their values. -/
def applyUpdateV1 (b : ProtestFields) (p : Protest) : Protest :=
  { p with
    name := b.name, cause := b.cause, description := b.description,
    location := b.location, latitude := b.latitude, longitude := b.longitude,
    date := b.date, time := b.time, official_link := b.official_link,
    tags := some (b.tags.getD []) }

/-- Response of the check-then-update variant of `PUT /api/protests/:id`:
`200` with the `RETURNING *` row set, `404`, or `403`. -/
inductive UpdateResult where
  | ok : List Protest → UpdateResult
  | notFound : UpdateResult
  | forbidden : UpdateResult
deriving DecidableEq, Repr

/-- HTTP status of an `UpdateResult`. -/
def UpdateResult.status : UpdateResult → Nat
  | .ok _ => 200
  | .notFound => 404
  | .forbidden => 403

/-- `PUT /api/protests/:id` of the first snapshot: ownership check by a
separate `SELECT`, then the unconditional `UPDATE … WHERE id = $11`. -/
def putProtestV1 (s : DbState) (uid : Nat) (pid : Nat) (b : ProtestFields) :
    DbState × UpdateResult :=
  match lookupProtest s pid with
  | none => (s, .notFound)
  | some row =>
    if row.organizer_id ≠ some uid then (s, .forbidden)
    else
      let updated := s.protests.map (fun p =>
        if p.id == pid then applyUpdateV1 b p else p)
      ({ s with protests := updated }, .ok (updated.filter (fun p => p.id == pid)))

/-- Response of `DELETE /api/protests/:id`. -/
inductive DeleteResult where
  | ok : DeleteResult
  | notFound : DeleteResult
  | forbidden : DeleteResult
deriving DecidableEq, Repr

/-- HTTP status of a `DeleteResult`. -/
def DeleteResult.status : DeleteResult → Nat
  | .ok => 200
  | .notFound => 404
  | .forbidden => 403

/-- `DELETE /api/protests/:id` of the first snapshot: the same ownership
check, then `DELETE FROM protests WHERE id = $1`. -/
def deleteProtestV1 (s : DbState) (uid : Nat) (pid : Nat) :
    DbState × DeleteResult :=
  match lookupProtest s pid with
  | none => (s, .notFound)
  | some row =>
    if row.organizer_id ≠ some uid then (s, .forbidden)
    else
      ({ s with protests := s.protests.filter (fun p => ¬(p.id == pid)) }, .ok)

/-- `tags ? tags.split(',').map(tag => tag.trim()) : []` of the second
snapshot, where the body carries tags as one comma-delimited string. -/
def splitTags (t : Option String) : List String :=
  if strFalsy t then [] else ((t.getD "").splitOn ",").map (fun x => x.trim)

/-- The editable fields of the second snapshot's update body: identical to
`ProtestFields` except that `tags` is a comma-delimited string. -/
structure ProtestFieldsStr where
  name : String
  cause : Option String
  description : Option String
  location : Option String
  latitude : Option Rat
  longitude : Option Rat
  date : Nat
  time : Nat
  official_link : Option String
  tags : Option String
deriving DecidableEq, Repr

/-- The `SET` clause of the second snapshot's conditional update. -/
def applyUpdateV2 (b : ProtestFieldsStr) (p : Protest) : Protest :=
  { p with
    name := b.name, cause := b.cause, description := b.description,
    location := b.location, latitude := b.latitude, longitude := b.longitude,
    date := b.date, time := b.time, official_link := b.official_link,
    tags := some (splitTags b.tags) }

/-- `PUT /api/protests/:id` of the second snapshot:
`UPDATE … WHERE id=$11 AND organizer_id=$12 RETURNING *`, answering 404 on an
empty row set (missing row and non-owner alike; there is no 403 path). -/
def putProtestV2 (s : DbState) (uid : Nat) (pid : Nat) (b : ProtestFieldsStr) :
    DbState × UpdateResult :=
  let cond := fun (p : Protest) => p.id == pid && p.organizer_id == some uid
  let updated := s.protests.map (fun p => if cond p then applyUpdateV2 b p else p)
  ({ s with protests := updated },
    match (updated.filter cond).head? with
    | none => .notFound
    | some _ => .ok (updated.filter cond))

/-! ## Registration (src/unnamed/part_001)

Two variants exist.  `POST /api/register` (first snapshot) pre-checks
`SELECT id FROM organizers WHERE email = $1` and answers 400 when a row
exists; on success it inserts and answers
`201 { message, token, organizer: { id, name, email, bio } }`.
`POST /api/organizers/register` (second snapshot) has no pre-check: the
`INSERT` hits the `UNIQUE` constraint on `email`, Postgres raises error
`23505`, and the handler answers 409; on success it answers the
`RETURNING id, name, email` row. -/

/-- The claims object signed into a JWT: `{ id, email }` in the first
snapshot, `{ id }` (no email) in the second. -/
structure TokenClaims where
  id : Nat
  email : Option String
deriving DecidableEq, Repr

/-- Request body of the register handlers. -/
structure RegisterBody where
  name : Option String
  email : Option String
  password : Option String
  bio : Option String
deriving DecidableEq, Repr

/-- The public organizer projection `{ id, name, email, bio }` returned by
the first snapshot's register and login responses. -/
structure OrganizerPublic where
  id : Nat
  name : String
  email : String
  bio : Option String
deriving DecidableEq, Repr

/-- Response of `POST /api/register` (first snapshot). -/
inductive RegisterV1Result where
  | missingFields : RegisterV1Result
  | emailTaken : RegisterV1Result
  | created : String → OrganizerPublic → RegisterV1Result
deriving DecidableEq, Repr

/-- HTTP status of a `RegisterV1Result`. -/
def RegisterV1Result.status : RegisterV1Result → Nat
  | .missingFields => 400
  | .emailTaken => 400
  | .created _ _ => 201

/-- `POST /api/register` (first snapshot): field check, duplicate pre-check,
`INSERT … RETURNING id, name, email, bio`, then
`jwt.sign({ id, email }, …)`.  The stored digest is `hash password` and the
stored bio is `bio || ''`. -/
def registerV1 (hash : String → String) (sign : TokenClaims → String)
    (s : DbState) (b : RegisterBody) : DbState × RegisterV1Result :=
  if strFalsy b.name || strFalsy b.email || strFalsy b.password then
    (s, .missingFields)
  else
    let email := b.email.getD ""
    if (s.organizers.filter (fun o => o.email == email)).length > 0 then
      (s, .emailTaken)
    else
      let row : Organizer :=
        { id := s.nextOrganizerId, name := b.name.getD "", email := email,
          password_hash := hash (b.password.getD ""),
          bio := some (b.bio.getD ""), followers := 0, social_clicks := 0 }
      let s2 := { s with organizers := s.organizers ++ [row],
                         nextOrganizerId := s.nextOrganizerId + 1 }
      (s2, .created (sign { id := row.id, email := some row.email })
        { id := row.id, name := row.name, email := row.email, bio := row.bio })

/-- Response of `POST /api/organizers/register` (second snapshot); the
created answer carries the `RETURNING id, name, email` projection. -/
inductive RegisterV2Result where
  | missingFields : RegisterV2Result
  | conflict : RegisterV2Result
  | created : Nat → String → String → RegisterV2Result
deriving DecidableEq, Repr

/-- HTTP status of a `RegisterV2Result` (`conflict` is the 23505 branch). -/
def RegisterV2Result.status : RegisterV2Result → Nat
  | .missingFields => 400
  | .conflict => 409
  | .created _ _ _ => 201

/-- `POST /api/organizers/register` (second snapshot): field check, then the
`INSERT`; a duplicate email violates the `UNIQUE` constraint (Postgres error
`23505`) and answers 409.  The bio is stored as sent (possibly `NULL`). -/
def registerV2 (hash : String → String) (s : DbState) (b : RegisterBody) :
    DbState × RegisterV2Result :=
  if strFalsy b.name || strFalsy b.email || strFalsy b.password then
    (s, .missingFields)
  else
    let email := b.email.getD ""
    if (s.organizers.filter (fun o => o.email == email)).length > 0 then
      (s, .conflict)
    else
      let row : Organizer :=
        { id := s.nextOrganizerId, name := b.name.getD "", email := email,
          password_hash := hash (b.password.getD ""),
          bio := b.bio, followers := 0, social_clicks := 0 }
      ({ s with organizers := s.organizers ++ [row],
                nextOrganizerId := s.nextOrganizerId + 1 },
       .created row.id row.name row.email)

/-- Number of organizer rows carrying a given email. -/
def emailCount (s : DbState) (e : String) : Nat :=
  (s.organizers.filter (fun o => o.email == e)).length

/-! ## Login (src/unnamed/part_001 `POST /api/login`)

Field check (400), `SELECT * FROM organizers WHERE email = $1` (empty row
set answers 401), `bcrypt.compare(password, row.password_hash)` (mismatch
answers 401), then `jwt.sign({ id, email }, …)` and
`200 { message, token, organizer: { id, name, email, bio } }`.  The handler
issues no SQL write, so the state is returned unchanged. -/

/-- Response of `POST /api/login` (first snapshot). -/
inductive LoginV1Result where
  | missingFields : LoginV1Result
  | invalid : LoginV1Result
  | ok : String → OrganizerPublic → LoginV1Result
deriving DecidableEq, Repr

/-- HTTP status of a `LoginV1Result`. -/
def LoginV1Result.status : LoginV1Result → Nat
  | .missingFields => 400
  | .invalid => 401
  | .ok _ _ => 200

/-- `POST /api/login` (first snapshot). -/
def loginV1 (compare : String → String → Bool) (sign : TokenClaims → String)
    (s : DbState) (email password : Option String) : DbState × LoginV1Result :=
  if strFalsy email || strFalsy password then (s, .missingFields)
  else
    match (s.organizers.filter (fun o => o.email == email.getD "")).head? with
    | none => (s, .invalid)
    | some org =>
      if compare (password.getD "") org.password_hash then
        (s, .ok (sign { id := org.id, email := some org.email })
          { id := org.id, name := org.name, email := org.email, bio := org.bio })
      else (s, .invalid)

/-- The database state after a list of login attempts (each attempt is an
`(email, password)` pair): every attempt threads the state it received. -/
def loginAttempts (compare : String → String → Bool)
    (sign : TokenClaims → String) (s : DbState)
    (attempts : List (Option String × Option String)) : DbState :=
  attempts.foldl (fun st a => (loginV1 compare sign st a.1 a.2).1) s

/-! ## The localhost snapshot (src/unnamed/part_002)

This snapshot has its own schema:
`organizers(id, name, email UNIQUE, password, bio, followers, instagram,
website, facebook)` and
`protests(id, name, cause, description, lat NOT NULL, lng NOT NULL, date,
time, location, organizer_id, attendees, likes, official_link, tags)`.
Its login issues no JWT; its create endpoint has no authentication and takes
`organizer_id` from the request body. -/

/-- A row of the part_002 `organizers` table (digest column is `password`). -/
structure OrganizerV2 where
  id : Nat
  name : String
  email : String
  password : String
  bio : Option String
  followers : Int
  instagram : Option String
  website : Option String
  facebook : Option String
deriving DecidableEq, Repr

/-- A row of the part_002 `protests` table. -/
structure ProtestV2 where
  id : Nat
  name : String
  cause : Option String
  description : Option String
  lat : Rat
  lng : Rat
  date : Nat
  time : Nat
  location : Option String
  organizer_id : Option Nat
  attendees : Int
  likes : Int
  official_link : Option String
  tags : Option (List String)
deriving DecidableEq, Repr

/-- Database state of the part_002 snapshot. -/
structure DbStateV2 where
  organizers : List OrganizerV2
  protests : List ProtestV2
  nextOrganizerId : Nat
  nextProtestId : Nat
deriving DecidableEq, Repr

/-- The organizer row with the `password` column stripped by the
destructuring `const { password: _, ...organizerData } = user.rows[0]`. -/
structure OrganizerV2Public where
  id : Nat
  name : String
  email : String
  bio : Option String
  followers : Int
  instagram : Option String
  website : Option String
  facebook : Option String
deriving DecidableEq, Repr

/-- The destructuring that builds `organizerData`. -/
def stripPassword (u : OrganizerV2) : OrganizerV2Public :=
  { id := u.id, name := u.name, email := u.email, bio := u.bio,
    followers := u.followers, instagram := u.instagram,
    website := u.website, facebook := u.facebook }

/-- Response of `POST /api/organizers/login` (part_002): a generic
invalid-credentials 400, or 200 with the password-stripped organizer row.
No token is issued by this handler. -/
inductive LoginV2Result where
  | invalid : LoginV2Result
  | ok : OrganizerV2Public → LoginV2Result
deriving DecidableEq, Repr

/-- HTTP status of a `LoginV2Result`. -/
def LoginV2Result.status : LoginV2Result → Nat
  | .invalid => 400
  | .ok _ => 200

/-- `POST /api/organizers/login` (part_002): `SELECT * … WHERE email = $1`,
`bcrypt.compare` against the `password` column, and on success
`{ message, organizer }` — the handler issues no SQL write and no token. -/
def loginV2 (compare : String → String → Bool) (s : DbStateV2)
    (email password : String) : LoginV2Result :=
  match (s.organizers.filter (fun o => o.email == email)).head? with
  | none => .invalid
  | some u =>
    if compare password u.password then .ok (stripPassword u) else .invalid

/-! ### JSON shapes of the authentication responses

For claims about which fields a response carries, the embedding records the
JSON keys and the string values of each success response body. -/

/-- Keys of the top-level JSON object of the first snapshot's register (and
login) success body: `{ message, token, organizer }`. -/
def registerV1TopKeys : List String := ["message", "token", "organizer"]

/-- Keys of the nested `organizer` object in the first snapshot's register
and login success bodies. -/
def registerV1OrganizerKeys : List String := ["id", "name", "email", "bio"]

/-- The string content of a nullable text column as it appears in a JSON
body: the string itself, or nothing for `NULL`. -/
def optStr (o : Option String) : List String :=
  match o with
  | some x => [x]
  | none => []

/-- The string values occurring in the first snapshot's register success
body `{ message, token, organizer: { id, name, email, bio } }`. -/
def registerV1RespStrings (msg t : String) (o : OrganizerPublic) : List String :=
  [msg, t, o.name, o.email] ++ optStr o.bio

/-- Keys of the top-level JSON object of the part_002 login success body:
`{ message, organizer }` — there is no `token` key. -/
def loginV2TopKeys : List String := ["message", "organizer"]

/-- Keys of the nested `organizer` object of the part_002 login success
body: every column of the row except `password`, in column order. -/
def loginV2OrganizerKeys : List String :=
  ["id", "name", "email", "bio", "followers", "instagram", "website", "facebook"]

/-- The string values occurring in the part_002 login success body. -/
def loginV2RespStrings (msg : String) (o : OrganizerV2Public) : List String :=
  [msg, o.name, o.email] ++ optStr o.bio ++ optStr o.instagram
    ++ optStr o.website ++ optStr o.facebook

/-! ## Create handlers (C8)

First snapshot `POST /api/protests` (authenticated): requires `name`,
`date`, `time` (400 otherwise) and inserts with
`organizer_id := req.user.id` — the verified token id; any `organizer_id`
field in the body is never read.

part_002 `POST /api/protests` (no authentication middleware): inserts
`organizer_id` straight from the request body and performs no field
validation; a body missing a `NOT NULL` column (e.g. `name`) makes the
`INSERT` fail and the handler answers 500. -/

/-- Request body of the create handlers.  `organizer_id` is a field a client
may send; only part_002 reads it. -/
structure CreateBody where
  name : Option String
  cause : Option String
  description : Option String
  location : Option String
  latitude : Option Rat
  longitude : Option Rat
  date : Option Nat
  time : Option Nat
  official_link : Option String
  tags : Option (List String)
  organizer_id : Option Nat
deriving DecidableEq, Repr

/-- Response of the first snapshot's create handler. -/
inductive CreateResult where
  | missingFields : CreateResult
  | created : Protest → CreateResult
deriving DecidableEq, Repr

/-- HTTP status of a `CreateResult`. -/
def CreateResult.status : CreateResult → Nat
  | .missingFields => 400
  | .created _ => 201

/-- `POST /api/protests` of the first snapshot (authenticated): the
`!name || !date || !time` check answers 400; otherwise
`INSERT … VALUES ($1,…)` with `$1 = req.user.id` and `tags || []`. -/
def createProtestV1 (s : DbState) (uid : Nat) (b : CreateBody) :
    DbState × CreateResult :=
  if strFalsy b.name || b.date.isNone || b.time.isNone then
    (s, .missingFields)
  else
    let row : Protest :=
      { id := s.nextProtestId, organizer_id := some uid,
        name := b.name.getD "", cause := b.cause,
        description := b.description, location := b.location,
        latitude := b.latitude, longitude := b.longitude,
        date := b.date.getD 0, time := b.time.getD 0,
        official_link := b.official_link,
        tags := some (b.tags.getD []), likes := 0 }
    ({ s with protests := s.protests ++ [row],
              nextProtestId := s.nextProtestId + 1 },
     .created row)

/-- Request body of the part_002 create handler (its columns are `lat`,
`lng` and it sends `tags` through unchanged). -/
structure CreateBodyV2 where
  name : Option String
  cause : Option String
  description : Option String
  lat : Option Rat
  lng : Option Rat
  date : Option Nat
  time : Option Nat
  location : Option String
  organizer_id : Option Nat
  official_link : Option String
  tags : Option (List String)
deriving DecidableEq, Repr

/-- Response of the part_002 create handler: 201 with the inserted row, or
the generic 500 of its catch block (reached when the `INSERT` violates a
`NOT NULL` column). -/
inductive CreateV2Result where
  | created : ProtestV2 → CreateV2Result
  | serverError : CreateV2Result
deriving DecidableEq, Repr

/-- HTTP status of a `CreateV2Result`. -/
def CreateV2Result.status : CreateV2Result → Nat
  | .created _ => 201
  | .serverError => 500

/-- `POST /api/protests` of part_002 (no authentication): inserts with
`organizer_id` taken from the body.  The `NOT NULL` columns `name`, `lat`,
`lng`, `date`, `time` reject a missing value, which surfaces as the catch
block's 500. -/
def createProtestV2 (s : DbStateV2) (b : CreateBodyV2) :
    DbStateV2 × CreateV2Result :=
  match b.name, b.lat, b.lng, b.date, b.time with
  | some nm, some la, some ln, some d, some t =>
    let row : ProtestV2 :=
      { id := s.nextProtestId, name := nm, cause := b.cause,
        description := b.description, lat := la, lng := ln,
        date := d, time := t, location := b.location,
        organizer_id := b.organizer_id, attendees := 0, likes := 0,
        official_link := b.official_link, tags := b.tags }
    ({ s with protests := s.protests ++ [row],
              nextProtestId := s.nextProtestId + 1 },
     .created row)
  | _, _, _, _, _ => (s, .serverError)

/-! ## List endpoints and their ordering (C6, C9, C10)

First snapshot `GET /api/protests` (public): a `JOIN` with `organizers`,
`ORDER BY p.date ASC, p.time ASC`, then a JavaScript `rows.map` building the
response objects (coordinates through `parseFloat`, `tags || []`,
`attendees: Math.floor(row.likes * 3.5)`, `distance: 0`).

First snapshot `GET /api/organizer/protests` (authenticated):
`SELECT * FROM protests WHERE organizer_id = $1 ORDER BY date ASC, time ASC`
with `$1 = req.user.id`.

Second snapshot `GET /api/organizers/:id/protests` (authenticated):
`SELECT * FROM protests WHERE organizer_id = $1 ORDER BY date DESC` with
`$1 = req.organizerId` — the decoded token id; the `:id` path parameter is
never read.  Likewise `GET /api/organizers/:id/analytics`.

`ORDER BY` is modelled by `List.insertionSort` with the corresponding
relation; any sorted permutation is a faithful model of the SQL ordering. -/

/-- `ORDER BY date ASC, time ASC` as a relation on protest rows. -/
def dateTimeLe (p q : Protest) : Prop :=
  p.date < q.date ∨ (p.date = q.date ∧ p.time ≤ q.time)

instance : DecidableRel dateTimeLe := fun p q => by
  unfold dateTimeLe; infer_instance

instance : IsTotal Protest dateTimeLe :=
  ⟨by intro a b; unfold dateTimeLe; omega⟩

instance : IsTrans Protest dateTimeLe :=
  ⟨by intro a b c; unfold dateTimeLe; omega⟩

/-- `ORDER BY date DESC` (no time tiebreak) as a relation on protest rows. -/
def dateDescLe (p q : Protest) : Prop := q.date ≤ p.date

instance : DecidableRel dateDescLe := fun p q => by
  unfold dateDescLe; infer_instance

instance : IsTotal Protest dateDescLe :=
  ⟨by intro a b; unfold dateDescLe; omega⟩

instance : IsTrans Protest dateDescLe :=
  ⟨by intro a b c; unfold dateDescLe; omega⟩

/-- The joined row of `FROM protests p JOIN organizers o ON
p.organizer_id = o.id`: the protest columns plus `o.id as organizer_id,
o.name as organizer_name`. -/
def joinRows (s : DbState) : List (Protest × Organizer) :=
  s.protests.flatMap (fun p =>
    (s.organizers.filter (fun o => some o.id == p.organizer_id)).map
      (fun o => (p, o)))

/-- `ORDER BY p.date ASC, p.time ASC` on the joined rows. -/
def joinedLe (a b : Protest × Organizer) : Prop := dateTimeLe a.1 b.1

instance : DecidableRel joinedLe := fun a b => by
  unfold joinedLe; infer_instance

instance : IsTotal (Protest × Organizer) joinedLe :=
  ⟨fun a b => IsTotal.total (r := dateTimeLe) a.1 b.1⟩

instance : IsTrans (Protest × Organizer) joinedLe :=
  ⟨fun _ _ _ hab hbc => Trans.trans (r := dateTimeLe) hab hbc⟩

/-- One element of the public list response, as built by the `rows.map` of
the first snapshot's `GET /api/protests`. -/
structure ProtestView where
  id : Nat
  name : String
  cause : Option String
  description : Option String
  location : Option String
  lat : Option Rat
  lng : Option Rat
  date : Nat
  time : Nat
  officialLink : Option String
  tags : List String
  likes : Int
  organizer : String
  organizerId : Nat
  attendees : Int
  distance : Int
deriving DecidableEq, Repr

/-- The response-time mapping of one joined row: `tags: row.tags || []`,
`attendees: Math.floor(row.likes * 3.5)` (`3.5` is exact in both the
JavaScript double and in `Rat`), `distance: 0`. -/
def mapRow (r : Protest × Organizer) : ProtestView :=
  { id := r.1.id, name := r.1.name, cause := r.1.cause,
    description := r.1.description, location := r.1.location,
    lat := r.1.latitude, lng := r.1.longitude,
    date := r.1.date, time := r.1.time, officialLink := r.1.official_link,
    tags := r.1.tags.getD [], likes := r.1.likes,
    organizer := r.2.name, organizerId := r.2.id,
    attendees := Int.floor ((r.1.likes : Rat) * 3.5), distance := 0 }

/-- `GET /api/protests` of the first snapshot. -/
def getProtestsV1 (s : DbState) : List ProtestView :=
  (List.insertionSort joinedLe (joinRows s)).map mapRow

/-- `ORDER BY date ASC, time ASC` on the response views. -/
def viewDateTimeLe (v w : ProtestView) : Prop :=
  v.date < w.date ∨ (v.date = w.date ∧ v.time ≤ w.time)

/-- `GET /api/organizer/protests` of the first snapshot (authenticated):
the caller's rows, `ORDER BY date ASC, time ASC`. -/
def organizerProtestsV1 (s : DbState) (uid : Nat) : List Protest :=
  List.insertionSort dateTimeLe
    (s.protests.filter (fun p => p.organizer_id == some uid))

/-- `GET /api/organizers/:id/protests` of the second snapshot
(authenticated): the token id selects the rows, `ORDER BY date DESC`; the
`:id` path parameter is an argument the handler body never reads. -/
def organizersIdProtestsV2 (s : DbState) (tokenId pathId : Nat) : List Protest :=
  List.insertionSort dateDescLe
    (s.protests.filter (fun p => p.organizer_id == some tokenId))

/-- Response of `GET /api/organizers/:id/analytics` (second snapshot). -/
structure AnalyticsResp where
  followers : Int
  total_likes : Int
  social_clicks : Int
deriving DecidableEq, Repr

/-- `GET /api/organizers/:id/analytics` of the second snapshot
(authenticated): `SELECT followers … WHERE id = $1` and
`SELECT SUM(likes) … WHERE organizer_id = $1`, both with the token id;
`social_clicks` is the literal 0.  The `:id` path parameter is never read. -/
def analyticsV2 (s : DbState) (tokenId pathId : Nat) : AnalyticsResp :=
  { followers :=
      (((s.organizers.filter (fun o => o.id == tokenId)).head?.map
        (fun o => o.followers)).getD 0),
    total_likes :=
      ((s.protests.filter (fun p => p.organizer_id == some tokenId)).map
        (fun p => p.likes)).sum,
    social_clicks := 0 }

/-! ## The remaining response bodies (C7)

Every handler's `SELECT` / `RETURNING` uses a digest-free column list.  The
definitions below embed the two organizer-profile endpoints and record the
JSON string content of every embedded response body, so that digest-absence
can be stated across all handlers, not only register and login. -/

/-- The row shape of `GET /api/organizers/:id` (second snapshot and
part_003): `SELECT id, name, email, bio, followers, social_clicks FROM
organizers WHERE id = $1`. -/
structure OrganizerProfile where
  id : Nat
  name : String
  email : String
  bio : Option String
  followers : Int
  social_clicks : Int
deriving DecidableEq, Repr

/-- The projection taken by that profile SELECT column list. -/
def profileOf (o : Organizer) : OrganizerProfile :=
  { id := o.id, name := o.name, email := o.email, bio := o.bio,
    followers := o.followers, social_clicks := o.social_clicks }

/-- `GET /api/organizers/:id` (second snapshot / part_003): answers
`rows[0]` of the profile selection; an absent id sends an empty body. -/
def getOrganizerById (s : DbState) (oid : Nat) : Option OrganizerProfile :=
  (lookupOrganizer s oid).map profileOf

/-- The row shape of part_002's `GET /api/organizers/:id`:
`SELECT id, name, bio, followers, email, instagram, website, facebook`. -/
structure OrganizerProfileV2 where
  id : Nat
  name : String
  bio : Option String
  followers : Int
  email : String
  instagram : Option String
  website : Option String
  facebook : Option String
deriving DecidableEq, Repr

/-- The projection taken by part_002's profile SELECT column list. -/
def profileV2Of (o : OrganizerV2) : OrganizerProfileV2 :=
  { id := o.id, name := o.name, bio := o.bio, followers := o.followers,
    email := o.email, instagram := o.instagram, website := o.website,
    facebook := o.facebook }

/-- part_002's `GET /api/organizers/:id`: `rows[0]` of the profile
selection, an empty row set answering 404 (`none`). -/
def getOrganizerByIdV2 (s : DbStateV2) (oid : Nat) :
    Option OrganizerProfileV2 :=
  ((s.organizers.filter (fun o => o.id == oid)).head?).map profileV2Of

/-- The string values of a profile body. -/
def organizerProfileStrings (p : OrganizerProfile) : List String :=
  [p.name, p.email] ++ optStr p.bio

/-- The string values of a part_002 profile body. -/
def organizerProfileV2Strings (p : OrganizerProfileV2) : List String :=
  [p.name, p.email] ++ optStr p.bio ++ optStr p.instagram
    ++ optStr p.website ++ optStr p.facebook

/-- The string values of a protest row as rendered in any row-set body
(`SELECT *` of the protests table — the table has no digest column). -/
def protestStrings (p : Protest) : List String :=
  [p.name] ++ optStr p.cause ++ optStr p.description ++ optStr p.location
    ++ optStr p.official_link ++ p.tags.getD []

/-- All protest-derived strings present in the store. -/
def protestTableStrings (s : DbState) : List String :=
  s.protests.flatMap protestStrings

/-- The string values of a part_002 protest row. -/
def protestV2Strings (p : ProtestV2) : List String :=
  [p.name] ++ optStr p.cause ++ optStr p.description ++ optStr p.location
    ++ optStr p.official_link ++ p.tags.getD []

/-- The string values of a public-list view element: the protest columns
plus the owning organizer's display name. -/
def protestViewStrings (v : ProtestView) : List String :=
  [v.name, v.organizer] ++ optStr v.cause ++ optStr v.description
    ++ optStr v.location ++ optStr v.officialLink ++ v.tags

/-- The string values of the first snapshot's login success body — the same
shape as its register body: message, token, organizer projection. -/
def loginV1RespStrings (msg t : String) (o : OrganizerPublic) : List String :=
  [msg, t, o.name, o.email] ++ optStr o.bio

/-- The string values of the 23505-variant register success body
(`RETURNING id, name, email`). -/
def registerV2RespStrings (nm em : String) : List String :=
  [nm, em]

/-- The strings of an update body as they appear in the `RETURNING` rows
after `applyUpdateV1` (every text column is overwritten by the body). -/
def protestFieldsStrings (b : ProtestFields) : List String :=
  [b.name] ++ optStr b.cause ++ optStr b.description ++ optStr b.location
    ++ optStr b.official_link ++ b.tags.getD []

/-- The strings of a conditional-update body as they appear in its
`RETURNING` rows after `applyUpdateV2`. -/
def protestFieldsStrStrings (b : ProtestFieldsStr) : List String :=
  [b.name] ++ optStr b.cause ++ optStr b.description ++ optStr b.location
    ++ optStr b.official_link ++ splitTags b.tags

/-- The strings of a create body as they appear in the inserted row. -/
def createBodyStrings (b : CreateBody) : List String :=
  [b.name.getD ""] ++ optStr b.cause ++ optStr b.description
    ++ optStr b.location ++ optStr b.official_link ++ b.tags.getD []

/-- The strings of a part_002 create body as they appear in the inserted
row. -/
def createBodyV2Strings (b : CreateBodyV2) : List String :=
  [b.name.getD ""] ++ optStr b.cause ++ optStr b.description
    ++ optStr b.location ++ optStr b.official_link ++ b.tags.getD []

/-- The string content of a like response: the success body `{ likes }` is
a number; the 404 body is the fixed message. -/
def likeRespStrings (r : CounterResult) : List String :=
  match r with
  | .ok _ => []
  | .notFound => ["Protest not found"]

/-- The string content of a follow response. -/
def followRespStrings (r : CounterResult) : List String :=
  match r with
  | .ok _ => []
  | .notFound => ["Organizer not found"]

/-- The string content of a delete response: all three bodies are fixed
messages. -/
def deleteRespStrings (r : DeleteResult) : List String :=
  match r with
  | .ok => ["Protest deleted successfully"]
  | .notFound => ["Protest not found"]
  | .forbidden => ["You can only delete your own protests"]

/-- The string content of an analytics body: all three fields are
numbers. -/
def analyticsStrings (_ : AnalyticsResp) : List String := []

/-- Every fixed message literal a handler can place in one of the bodies
above. -/
def fixedMessages : List String :=
  ["Registration successful", "Login successful", "Protest not found",
   "Organizer not found", "Protest deleted successfully",
   "You can only delete your own protests"]

/-! ## Concrete fixtures used by witnesses and counterexamples -/

/-- Demo bcrypt hash. -/
def hashDemo (p : String) : String := "hashed." ++ p

/-- Demo bcrypt comparison matching `hashDemo`. -/
def compareDemo (p d : String) : Bool := d == "hashed." ++ p

/-- Demo token signer. -/
def signDemo (c : TokenClaims) : String := "tok" ++ toString c.id

/-- Fixture organizer 1. -/
def orgA : Organizer :=
  { id := 1, name := "Ada", email := "ada@example.com",
    password_hash := "hashed.pw1", bio := some "hi", followers := 5,
    social_clicks := 0 }

/-- Fixture organizer 2. -/
def orgB : Organizer :=
  { id := 2, name := "Bea", email := "bea@example.com",
    password_hash := "hashed.pw2", bio := none, followers := 0,
    social_clicks := 0 }

/-- Fixture protest 1, owned by organizer 1. -/
def protA : Protest :=
  { id := 1, organizer_id := some 1, name := "March", cause := none,
    description := none, location := none, latitude := none,
    longitude := none, date := 10, time := 100, official_link := none,
    tags := none, likes := 3 }

/-- Fixture protest 2, owned by organizer 1, later date. -/
def protB : Protest :=
  { id := 2, organizer_id := some 1, name := "Rally", cause := none,
    description := none, location := none, latitude := none,
    longitude := none, date := 20, time := 50, official_link := none,
    tags := some ["a", "b"], likes := 0 }

/-- Fixture database state for the first snapshot. -/
def baseState : DbState :=
  { organizers := [orgA, orgB], protests := [protA, protB],
    nextOrganizerId := 3, nextProtestId := 3 }

/-- Fixture body for update requests. -/
def updBody : ProtestFields :=
  { name := "New name", cause := none, description := none, location := none,
    latitude := none, longitude := none, date := 11, time := 30,
    official_link := none, tags := none }

/-- Fixture body for the conditional-update variant. -/
def updBodyStr : ProtestFieldsStr :=
  { name := "New name", cause := none, description := none, location := none,
    latitude := none, longitude := none, date := 11, time := 30,
    official_link := none, tags := some "x, y" }

/-- Fixture part_002 organizer. -/
def orgV2A : OrganizerV2 :=
  { id := 1, name := "Cy", email := "cy@example.com",
    password := "hashed.pw3", bio := some "b", followers := 7,
    instagram := some "ig", website := none, facebook := none }

/-- Fixture part_002 database state. -/
def baseStateV2 : DbStateV2 :=
  { organizers := [orgV2A], protests := [], nextOrganizerId := 2,
    nextProtestId := 1 }

/-- Fixture body for the part_002 create handler, carrying a body-chosen
`organizer_id`. -/
def createBodyV2 : CreateBodyV2 :=
  { name := some "March", cause := none, description := none,
    lat := some 1, lng := some 2, date := some 10, time := some 100,
    location := none, organizer_id := some 7, official_link := none,
    tags := none }

/-- Fixture body for the first snapshot's create handler. -/
def createBodyA : CreateBody :=
  { name := some "March", cause := none, description := none,
    location := none, latitude := none, longitude := none,
    date := some 10, time := some 100, official_link := none,
    tags := none, organizer_id := some 7 }

/-- Fixture register body. -/
def regBodyA : RegisterBody :=
  { name := some "Ada", email := some "new@example.com",
    password := some "pw9", bio := some "hi" }

end ProtestTracker

namespace ProtestTracker

/-! ## Helper theorems used to reason about `UPDATE … WHERE` statements -/

/-- Updating the rows that satisfy `key` commutes with selecting them, when
the update preserves `key`. -/
theorem filter_map_update {α : Type} (l : List α) (key : α → Bool) (f : α → α)
    (hf : ∀ a, key a = true → key (f a) = true) :
    (l.map (fun a => if key a then f a else a)).filter key =
      (l.filter key).map f := by
  induction l with
  | nil => rfl
  | cons x xs ih =>
    by_cases hx : key x = true
    · simp [hx, hf x hx, ih]
    · simp only [Bool.not_eq_true] at hx
      simp [hx, ih]

/-- Rows not satisfying `key` are untouched by an update guarded by `key`,
as long as the update leaves `key` membership unchanged. -/
theorem filter_map_update_other {α : Type} (l : List α) (key sel : α → Bool)
    (f : α → α) (hdisj : ∀ a, key a = true → sel a = false ∧ sel (f a) = false) :
    (l.map (fun a => if key a then f a else a)).filter sel = l.filter sel := by
  induction l with
  | nil => rfl
  | cons x xs ih =>
    by_cases hx : key x = true
    · simp [hx, (hdisj x hx).1, (hdisj x hx).2, ih]
    · simp only [Bool.not_eq_true] at hx
      simp only [List.map_cons, hx, if_false, List.filter_cons, ih]
      simp

/-- An update guarded by `key` is the identity when no row satisfies `key`. -/
theorem map_update_of_none {α : Type} (l : List α) (key : α → Bool) (f : α → α)
    (h : ∀ a ∈ l, key a = false) :
    l.map (fun a => if key a then f a else a) = l := by
  induction l with
  | nil => rfl
  | cons x xs ih =>
    have hx := h x (List.mem_cons_self x xs)
    simp [hx, ih (fun a ha => h a (List.mem_cons_of_mem x ha))]

end ProtestTracker

namespace ProtestTracker

/-- Row-set lemma: the `RETURNING` head of an update guarded by `key` is the
image under the update of the head of the original selection. -/
theorem update_rows_spec {α : Type} (l : List α) (key : α → Bool) (f : α → α)
    (hk : ∀ a, key a = true → key (f a) = true) :
    ((l.map (fun a => if key a then f a else a)).filter key).head? =
      ((l.filter key).head?).map f := by
  rw [filter_map_update l key f hk, List.head?_map]

/-- Row-set lemma: when the selection is empty the guarded update leaves the
table unchanged. -/
theorem update_rows_none {α : Type} (l : List α) (key : α → Bool) (f : α → α)
    (h : (l.filter key).head? = none) :
    l.map (fun a => if key a then f a else a) = l := by
  apply map_update_of_none
  intro a ha
  have hnil : l.filter key = [] := List.head?_eq_none_iff.mp h
  have := List.filter_eq_nil_iff.mp hnil a ha
  simpa using this

/-- Memoized calls after the first return the cached outcome and never
re-execute the initialization routine. -/
theorem ensureCalls_cached (ini o : InitOutcome) :
    ∀ n, ensureCalls ini n (some o) = (some o, List.replicate n o, 0)
  | 0 => rfl
  | n + 1 => by
    simp [ensureCalls, ensureDbReady, ensureCalls_cached ini o n,
      List.replicate_succ]

/-- C1: `ensureDbReady` / `ensureDbIsReady` is callable any number of times
and `initializeDatabase` / `initializeDb` executes at most once per process
(exactly once as soon as there is one call).  The first call stores the
outcome in the memo variable, and every call — first or later — observes
that same outcome, a success and a cached failure alike. -/
theorem ensureDbReady_memoized (ini o : InitOutcome) (n : Nat) :
    (ensureDbReady ini none).1 = some ini ∧
    ensureDbReady ini (some o) = (some o, o, false) ∧
    (ensureCalls ini n none).2.1 = List.replicate n ini ∧
    (ensureCalls ini n none).2.2 ≤ 1 ∧
    (ensureCalls ini (n + 1) none).2.2 = 1 := by
  refine ⟨rfl, rfl, ?_, ?_, ?_⟩
  · cases n with
    | zero => rfl
    | succ m =>
      simp [ensureCalls, ensureDbReady, ensureCalls_cached, List.replicate_succ]
  · cases n with
    | zero => simp [ensureCalls]
    | succ m => simp [ensureCalls, ensureDbReady, ensureCalls_cached]
  · simp [ensureCalls, ensureDbReady, ensureCalls_cached]

/-- C2: for a protest id present in the store with like count `L`, the like
handler answers `max 0 (L + 1)` on `liked = true` and `max 0 (L - 1)` on
`liked = false`, stores exactly that count, and touches no other row; for an
absent id it answers 404 and changes nothing.  The follow handler satisfies
the same `max 0 (count + sign)` contract on an organizer's `followers`. -/
theorem like_follow_counter (s : DbState) (pid oid : Nat)
    (liked following : Bool) :
    (∀ p, lookupProtest s pid = some p →
      (likeProtest s pid liked).2 =
        CounterResult.ok (max 0 (p.likes + likeDelta liked)) ∧
      lookupProtest (likeProtest s pid liked).1 pid =
        some { p with likes := max 0 (p.likes + likeDelta liked) } ∧
      ∀ q, q ≠ pid →
        lookupProtest (likeProtest s pid liked).1 q = lookupProtest s q) ∧
    (lookupProtest s pid = none →
      likeProtest s pid liked = (s, CounterResult.notFound)) ∧
    (∀ o, lookupOrganizer s oid = some o →
      (followOrganizer s oid following).2 =
        CounterResult.ok (max 0 (o.followers + likeDelta following)) ∧
      lookupOrganizer (followOrganizer s oid following).1 oid =
        some { o with followers := max 0 (o.followers + likeDelta following) } ∧
      ∀ q, q ≠ oid →
        lookupOrganizer (followOrganizer s oid following).1 q =
          lookupOrganizer s q) ∧
    (lookupOrganizer s oid = none →
      followOrganizer s oid following = (s, CounterResult.notFound)) := by
  have hupP : ((s.protests.map (fun p =>
        if p.id == pid then { p with likes := max 0 (p.likes + likeDelta liked) }
        else p)).filter (fun p => p.id == pid)).head? =
      ((s.protests.filter (fun p => p.id == pid)).head?).map
        (fun p => { p with likes := max 0 (p.likes + likeDelta liked) }) :=
    update_rows_spec s.protests (fun p => p.id == pid)
      (fun p => { p with likes := max 0 (p.likes + likeDelta liked) })
      (fun a ha => ha)
  have hupO : ((s.organizers.map (fun o =>
        if o.id == oid then
          { o with followers := max 0 (o.followers + likeDelta following) }
        else o)).filter (fun o => o.id == oid)).head? =
      ((s.organizers.filter (fun o => o.id == oid)).head?).map
        (fun o => { o with followers := max 0 (o.followers + likeDelta following) }) :=
    update_rows_spec s.organizers (fun o => o.id == oid)
      (fun o => { o with followers := max 0 (o.followers + likeDelta following) })
      (fun a ha => ha)
  refine ⟨?_, ?_, ?_, ?_⟩
  · intro p hp
    simp only [lookupProtest, protestRows] at hp
    refine ⟨?_, ?_, ?_⟩
    · simp only [likeProtest, hupP, hp, Option.map_some']
    · simp only [likeProtest, lookupProtest, protestRows, hupP, hp,
        Option.map_some']
    · intro q hq
      have hother : ((s.protests.map (fun p =>
            if p.id == pid then
              { p with likes := max 0 (p.likes + likeDelta liked) }
            else p)).filter (fun p => p.id == q)) =
          s.protests.filter (fun p => p.id == q) := by
        refine filter_map_update_other s.protests (fun p => p.id == pid)
          (fun p => p.id == q)
          (fun p => { p with likes := max 0 (p.likes + likeDelta liked) }) ?_
        intro a ha
        simp only [beq_iff_eq] at ha
        constructor
        · show (a.id == q) = false
          simp only [beq_eq_false_iff_ne]
          omega
        · show (a.id == q) = false
          simp only [beq_eq_false_iff_ne]
          omega
      simp only [likeProtest, lookupProtest, protestRows, hother]
  · intro hp
    simp only [lookupProtest, protestRows] at hp
    have hid : s.protests.map (fun p =>
        if p.id == pid then { p with likes := max 0 (p.likes + likeDelta liked) }
        else p) = s.protests :=
      update_rows_none s.protests (fun p => p.id == pid)
        (fun p => { p with likes := max 0 (p.likes + likeDelta liked) }) hp
    simp only [likeProtest, hid, hp]
  · intro o ho
    simp only [lookupOrganizer, organizerRows] at ho
    refine ⟨?_, ?_, ?_⟩
    · simp only [followOrganizer, hupO, ho, Option.map_some']
    · simp only [followOrganizer, lookupOrganizer, organizerRows, hupO, ho,
        Option.map_some']
    · intro q hq
      have hother : ((s.organizers.map (fun o =>
            if o.id == oid then
              { o with followers := max 0 (o.followers + likeDelta following) }
            else o)).filter (fun o => o.id == q)) =
          s.organizers.filter (fun o => o.id == q) := by
        refine filter_map_update_other s.organizers (fun o => o.id == oid)
          (fun o => o.id == q)
          (fun o => { o with followers := max 0 (o.followers + likeDelta following) }) ?_
        intro a ha
        simp only [beq_iff_eq] at ha
        constructor
        · show (a.id == q) = false
          simp only [beq_eq_false_iff_ne]
          omega
        · show (a.id == q) = false
          simp only [beq_eq_false_iff_ne]
          omega
      simp only [followOrganizer, lookupOrganizer, organizerRows, hother]
  · intro ho
    simp only [lookupOrganizer, organizerRows] at ho
    have hid : s.organizers.map (fun o =>
        if o.id == oid then
          { o with followers := max 0 (o.followers + likeDelta following) }
        else o) = s.organizers :=
      update_rows_none s.organizers (fun o => o.id == oid)
        (fun o => { o with followers := max 0 (o.followers + likeDelta following) }) ho
    simp only [followOrganizer, hid, ho]

/-- Witness for C2 on the fixture store: liking protest 1 (stored count 3)
answers 4; liking the missing id 99 answers 404 and leaves the store as it
was; unfollowing organizer 1 (stored count 5) answers 4. -/
theorem like_follow_counter_witness :
    (likeProtest baseState 1 true).2 = CounterResult.ok 4 ∧
    likeProtest baseState 99 true = (baseState, CounterResult.notFound) ∧
    (followOrganizer baseState 1 false).2 = CounterResult.ok 4 ∧
    followOrganizer baseState 99 false = (baseState, CounterResult.notFound) := by
  have h := like_follow_counter baseState 1 1 true false
  have h99 := like_follow_counter baseState 99 99 true false
  refine ⟨?_, h99.2.1 rfl, ?_, h99.2.2.2 rfl⟩
  · exact ((h.1 protA rfl).1).trans (by decide)
  · exact ((h.2.2.1 orgA rfl).1).trans (by decide)

end ProtestTracker

namespace ProtestTracker

/-- C3 counterexample: in the fixture store protest 1 exists and is owned by
organizer 1, yet the conditional-update variant answers caller 2 with 404 —
not with the 403 the claim asserts for every Update on an existing,
non-owned row. -/
theorem ownership_403_counterexample :
    lookupProtest baseState 1 = some protA ∧
    protA.organizer_id = some 1 ∧
    (2 : Nat) ≠ 1 ∧
    (putProtestV2 baseState 2 1 updBodyStr).2 = UpdateResult.notFound ∧
    UpdateResult.notFound.status = 404 ∧ UpdateResult.notFound.status ≠ 403 := by
  refine ⟨rfl, rfl, by decide, by rfl, rfl, by decide⟩

/-- C3 (amended): a rejected Update or Delete never mutates the store.  In
the check-then-update variant a missing id answers 404 and a non-owner 403;
in the conditional-update variant an empty `RETURNING` row set — missing id
and non-owner alike — answers 404. -/
theorem update_delete_ownership (s : DbState) (uid pid : Nat)
    (b : ProtestFields) (b2 : ProtestFieldsStr) :
    (lookupProtest s pid = none →
      putProtestV1 s uid pid b = (s, UpdateResult.notFound) ∧
      deleteProtestV1 s uid pid = (s, DeleteResult.notFound)) ∧
    (∀ row, lookupProtest s pid = some row → row.organizer_id ≠ some uid →
      putProtestV1 s uid pid b = (s, UpdateResult.forbidden) ∧
      deleteProtestV1 s uid pid = (s, DeleteResult.forbidden)) ∧
    ((∀ p ∈ s.protests, ¬(p.id = pid ∧ p.organizer_id = some uid)) →
      putProtestV2 s uid pid b2 = (s, UpdateResult.notFound)) := by
  refine ⟨?_, ?_, ?_⟩
  · intro hnone
    constructor
    · simp only [putProtestV1, hnone]
    · simp only [deleteProtestV1, hnone]
  · intro row hrow hne
    constructor
    · simp only [putProtestV1, hrow]
      rw [if_pos hne]
    · simp only [deleteProtestV1, hrow]
      rw [if_pos hne]
  · intro hnone
    have hcond : ∀ p ∈ s.protests,
        (p.id == pid && p.organizer_id == some uid) = false := by
      intro p hps
      cases hb : (p.id == pid && p.organizer_id == some uid) with
      | false => rfl
      | true =>
        exfalso
        simp only [Bool.and_eq_true, beq_iff_eq] at hb
        exact hnone p hps ⟨hb.1, hb.2⟩
    have hid : s.protests.map (fun p =>
        if p.id == pid && p.organizer_id == some uid then applyUpdateV2 b2 p
        else p) = s.protests :=
      map_update_of_none s.protests
        (fun p => p.id == pid && p.organizer_id == some uid)
        (applyUpdateV2 b2) hcond
    have hfil : s.protests.filter
        (fun p => p.id == pid && p.organizer_id == some uid) = [] :=
      List.filter_eq_nil_iff.mpr (by intro a ha; simp [hcond a ha])
    simp only [putProtestV2, hid, hfil, List.head?_nil]

/-- Witness for the amended C3 on the fixture store: a missing id answers
404, a non-owner answers 403 in the check-then-update variant and 404 in
the conditional-update variant, and the store is unchanged each time. -/
theorem update_delete_ownership_witness :
    putProtestV1 baseState 2 99 updBody = (baseState, UpdateResult.notFound) ∧
    putProtestV1 baseState 2 1 updBody = (baseState, UpdateResult.forbidden) ∧
    deleteProtestV1 baseState 2 1 = (baseState, DeleteResult.forbidden) ∧
    putProtestV2 baseState 2 1 updBodyStr = (baseState, UpdateResult.notFound) := by
  have h99 := update_delete_ownership baseState 2 99 updBody updBodyStr
  have h1 := update_delete_ownership baseState 2 1 updBody updBodyStr
  exact ⟨(h99.1 rfl).1, (h1.2.1 protA rfl (by decide)).1,
    (h1.2.1 protA rfl (by decide)).2, h1.2.2 (by decide)⟩

end ProtestTracker

namespace ProtestTracker

/-- Any register call preserves at-most-one-row-per-email: a row is only
inserted after the duplicate check (pre-check or unique constraint) saw no
row with that email. -/
theorem register_preserves_unique (hash : String → String)
    (sign : TokenClaims → String) (s : DbState) (b3 : RegisterBody)
    (e2 : String) (hle : emailCount s e2 ≤ 1) :
    emailCount (registerV1 hash sign s b3).1 e2 ≤ 1 ∧
    emailCount (registerV2 hash s b3).1 e2 ≤ 1 := by
  constructor
  · by_cases h1 : (strFalsy b3.name || strFalsy b3.email || strFalsy b3.password) = true
    · simp only [registerV1]
      rw [if_pos h1]
      exact hle
    · by_cases h2 :
        (s.organizers.filter (fun o => o.email == b3.email.getD "")).length > 0
      · simp only [registerV1]
        rw [if_neg h1, if_pos h2]
        exact hle
      · simp only [registerV1]
        rw [if_neg h1, if_neg h2]
        by_cases h3 : b3.email.getD "" = e2
        · have h0 : (s.organizers.filter (fun o => o.email == e2)).length = 0 := by
            rw [← h3]
            omega
          simp [emailCount, List.filter_append, h0, h3]
        · have hcount := hle
          simp only [emailCount] at hcount
          simp [emailCount, List.filter_append, beq_iff_eq, h3, hcount]
  · by_cases h1 : (strFalsy b3.name || strFalsy b3.email || strFalsy b3.password) = true
    · simp only [registerV2]
      rw [if_pos h1]
      exact hle
    · by_cases h2 :
        (s.organizers.filter (fun o => o.email == b3.email.getD "")).length > 0
      · simp only [registerV2]
        rw [if_neg h1, if_pos h2]
        exact hle
      · simp only [registerV2]
        rw [if_neg h1, if_neg h2]
        by_cases h3 : b3.email.getD "" = e2
        · have h0 : (s.organizers.filter (fun o => o.email == e2)).length = 0 := by
            rw [← h3]
            omega
          simp [emailCount, List.filter_append, h0, h3]
        · have hcount := hle
          simp only [emailCount] at hcount
          simp [emailCount, List.filter_append, beq_iff_eq, h3, hcount]

/-- C4: with a fresh email, the first register call succeeds with 201 and
inserts one row; a second call carrying the same email fails — 400 in the
pre-check variant, 409 in the 23505 variant — inserts nothing, and leaves
the state unchanged; and every register call preserves at most one organizer
row per email. -/
theorem register_duplicate_email (hash : String → String)
    (sign : TokenClaims → String) (s : DbState) (b b2 : RegisterBody)
    (e : String) (hbe : b.email = some e) (hb2e : b2.email = some e)
    (hbn : strFalsy b.name = false) (hbp : strFalsy b.password = false)
    (hb2n : strFalsy b2.name = false) (hb2p : strFalsy b2.password = false)
    (hne : e ≠ "") (hfresh : emailCount s e = 0) :
    (registerV1 hash sign s b).2.status = 201 ∧
    emailCount (registerV1 hash sign s b).1 e = 1 ∧
    registerV1 hash sign (registerV1 hash sign s b).1 b2 =
      ((registerV1 hash sign s b).1, RegisterV1Result.emailTaken) ∧
    RegisterV1Result.emailTaken.status = 400 ∧
    (registerV2 hash s b).2.status = 201 ∧
    emailCount (registerV2 hash s b).1 e = 1 ∧
    registerV2 hash (registerV2 hash s b).1 b2 =
      ((registerV2 hash s b).1, RegisterV2Result.conflict) ∧
    RegisterV2Result.conflict.status = 409 ∧
    (∀ b3 e2, emailCount s e2 ≤ 1 →
      emailCount (registerV1 hash sign s b3).1 e2 ≤ 1 ∧
      emailCount (registerV2 hash s b3).1 e2 ≤ 1) := by
  have hfe : strFalsy (some e) = false := by
    simp only [strFalsy, beq_eq_false_iff_ne, ne_eq]
    exact hne
  have hni : ¬ ((strFalsy b.name || strFalsy (some e) || strFalsy b.password) = true) := by
    simp [hbn, hfe, hbp]
  have hni2 : ¬ ((strFalsy b2.name || strFalsy (some e) || strFalsy b2.password) = true) := by
    simp [hb2n, hfe, hb2p]
  have hlen : (s.organizers.filter (fun o => o.email == e)).length = 0 := by
    simpa [emailCount] using hfresh
  have hgt : ¬ ((s.organizers.filter (fun o => o.email == e)).length > 0) := by
    omega
  have hcall1 : registerV1 hash sign s b =
      ({ s with
          organizers := s.organizers ++
            [{ id := s.nextOrganizerId, name := b.name.getD "", email := e,
               password_hash := hash (b.password.getD ""),
               bio := some (b.bio.getD ""), followers := 0,
               social_clicks := 0 }],
          nextOrganizerId := s.nextOrganizerId + 1 },
       RegisterV1Result.created
         (sign { id := s.nextOrganizerId, email := some e })
         { id := s.nextOrganizerId, name := b.name.getD "", email := e,
           bio := some (b.bio.getD "") }) := by
    simp only [registerV1, hbe, Option.getD_some]
    rw [if_neg hni, if_neg hgt]
  have hcall2 : registerV2 hash s b =
      ({ s with
          organizers := s.organizers ++
            [{ id := s.nextOrganizerId, name := b.name.getD "", email := e,
               password_hash := hash (b.password.getD ""),
               bio := b.bio, followers := 0,
               social_clicks := 0 }],
          nextOrganizerId := s.nextOrganizerId + 1 },
       RegisterV2Result.created s.nextOrganizerId (b.name.getD "") e) := by
    simp only [registerV2, hbe, Option.getD_some]
    rw [if_neg hni, if_neg hgt]
  refine ⟨?_, ?_, ?_, rfl, ?_, ?_, ?_, rfl, ?_⟩
  · rw [hcall1]
    rfl
  · rw [hcall1]
    simp [emailCount, List.filter_append, hlen]
  · rw [hcall1]
    have hpos : (((s.organizers ++
        [{ id := s.nextOrganizerId, name := b.name.getD "", email := e,
           password_hash := hash (b.password.getD ""),
           bio := some (b.bio.getD ""), followers := 0,
           social_clicks := 0 }] : List Organizer)).filter
          (fun o => o.email == e)).length > 0 := by
      simp [List.filter_append]
    simp only [registerV2, registerV1, hb2e, Option.getD_some]
    rw [if_neg hni2, if_pos hpos]
  · rw [hcall2]
    rfl
  · rw [hcall2]
    simp [emailCount, List.filter_append, hlen]
  · rw [hcall2]
    have hpos : (((s.organizers ++
        [{ id := s.nextOrganizerId, name := b.name.getD "", email := e,
           password_hash := hash (b.password.getD ""),
           bio := b.bio, followers := 0,
           social_clicks := 0 }] : List Organizer)).filter
          (fun o => o.email == e)).length > 0 := by
      simp [List.filter_append]
    simp only [registerV2, hb2e, Option.getD_some]
    rw [if_neg hni2, if_pos hpos]
  · intro b3 e2 hle
    exact register_preserves_unique hash sign s b3 e2 hle

/-- Witness for C4 on the fixture store with a fresh email: 201 then a
duplicate failure in both variants, no second row. -/
theorem register_duplicate_email_witness :
    (registerV1 hashDemo signDemo baseState regBodyA).2.status = 201 ∧
    emailCount (registerV1 hashDemo signDemo baseState regBodyA).1
      "new@example.com" = 1 ∧
    registerV1 hashDemo signDemo
        (registerV1 hashDemo signDemo baseState regBodyA).1 regBodyA =
      ((registerV1 hashDemo signDemo baseState regBodyA).1,
        RegisterV1Result.emailTaken) ∧
    (registerV2 hashDemo baseState regBodyA).2.status = 201 ∧
    registerV2 hashDemo (registerV2 hashDemo baseState regBodyA).1 regBodyA =
      ((registerV2 hashDemo baseState regBodyA).1,
        RegisterV2Result.conflict) ∧
    emailCount baseState "new@example.com" = 0 := by
  have h := register_duplicate_email hashDemo signDemo baseState regBodyA
    regBodyA "new@example.com" rfl rfl rfl rfl rfl rfl (by decide) (by decide)
  exact ⟨h.1, h.2.1, h.2.2.1, h.2.2.2.2.1, h.2.2.2.2.2.2.1, by decide⟩

end ProtestTracker

namespace ProtestTracker

/-- The first snapshot's login issues no SQL write: every branch returns the
store unchanged. -/
theorem loginV1_state (compare : String → String → Bool)
    (sign : TokenClaims → String) (s : DbState)
    (email password : Option String) :
    (loginV1 compare sign s email password).1 = s := by
  unfold loginV1
  split
  · rfl
  · split
    · rfl
    · split
      · rfl
      · rfl

/-- Any sequence of login attempts leaves the store exactly as it was:
there is no lockout state to accumulate. -/
theorem loginAttempts_id (compare : String → String → Bool)
    (sign : TokenClaims → String) (s : DbState) :
    ∀ attempts, loginAttempts compare sign s attempts = s
  | [] => rfl
  | a :: rest => by
    show loginAttempts compare sign
      ((loginV1 compare sign s a.1 a.2).1) rest = s
    rw [loginV1_state]
    exact loginAttempts_id compare sign s rest

/-- C5 counterexample: the part_002 login succeeds on matching credentials
yet its response carries no `token` key at all, refuting the claim that
every successful login issues a signed token. -/
theorem login_no_token_counterexample :
    loginV2 compareDemo baseStateV2 "cy@example.com" "pw3" =
      LoginV2Result.ok (stripPassword orgV2A) ∧
    "token" ∉ loginV2TopKeys := by
  exact ⟨by decide, by decide⟩

/-- C5 (amended): in both login variants an unknown email or a failed hash
comparison answers an invalid-credentials error (401 in the first snapshot,
400 in part_002) and issues no token, and this is independent of how many
prior failed attempts occurred — no attempt changes the store.  On success
the first snapshot issues `sign { id, email }`, a token embedding the
organizer id; the part_002 variant instead returns the password-stripped
organizer row and no token. -/
theorem login_contract (compare : String → String → Bool)
    (sign : TokenClaims → String) (s : DbState) (s2 : DbStateV2)
    (email password : Option String) (e pw : String) :
    (strFalsy email = false → strFalsy password = false →
      (s.organizers.filter (fun o => o.email == email.getD "")).head? = none →
      loginV1 compare sign s email password = (s, LoginV1Result.invalid)) ∧
    (∀ org, strFalsy email = false → strFalsy password = false →
      (s.organizers.filter (fun o => o.email == email.getD "")).head? = some org →
      compare (password.getD "") org.password_hash = false →
      loginV1 compare sign s email password = (s, LoginV1Result.invalid)) ∧
    (∀ attempts, loginAttempts compare sign s attempts = s) ∧
    (∀ attempts, loginV1 compare sign (loginAttempts compare sign s attempts)
      email password = loginV1 compare sign s email password) ∧
    (∀ org, strFalsy email = false → strFalsy password = false →
      (s.organizers.filter (fun o => o.email == email.getD "")).head? = some org →
      compare (password.getD "") org.password_hash = true →
      loginV1 compare sign s email password =
        (s, LoginV1Result.ok (sign { id := org.id, email := some org.email })
          { id := org.id, name := org.name, email := org.email,
            bio := org.bio })) ∧
    ((s2.organizers.filter (fun o => o.email == e)).head? = none →
      loginV2 compare s2 e pw = LoginV2Result.invalid) ∧
    (∀ u, (s2.organizers.filter (fun o => o.email == e)).head? = some u →
      compare pw u.password = false →
      loginV2 compare s2 e pw = LoginV2Result.invalid) ∧
    (∀ u, (s2.organizers.filter (fun o => o.email == e)).head? = some u →
      compare pw u.password = true →
      loginV2 compare s2 e pw = LoginV2Result.ok (stripPassword u)) ∧
    "token" ∉ loginV2TopKeys ∧
    LoginV1Result.invalid.status = 401 ∧ LoginV2Result.invalid.status = 400 := by
  have hval : ∀ he : strFalsy email = false, ∀ hp : strFalsy password = false,
      ¬((strFalsy email || strFalsy password) = true) := by
    intro he hp
    simp [he, hp]
  refine ⟨?_, ?_, loginAttempts_id compare sign s, ?_, ?_, ?_, ?_, ?_,
    by decide, rfl, rfl⟩
  · intro he hp hnone
    simp only [loginV1, hnone]
    rw [if_neg (hval he hp)]
  · intro org he hp hsome hcmp
    simp only [loginV1, hsome]
    rw [if_neg (hval he hp)]
    simp only [hcmp, Bool.false_eq_true, if_false]
  · intro attempts
    rw [loginAttempts_id]
  · intro org he hp hsome hcmp
    simp only [loginV1, hsome]
    rw [if_neg (hval he hp)]
    simp only [hcmp, if_true]
  · intro hnone
    simp only [loginV2, hnone]
  · intro u hsome hcmp
    simp only [loginV2, hsome, hcmp, Bool.false_eq_true, if_false]
  · intro u hsome hcmp
    simp only [loginV2, hsome, hcmp, if_true]

/-- Witness for the amended C5 on the fixture stores: unknown email and
wrong password answer invalid in both variants, repeated failures change
nothing, and a correct first-snapshot login yields the signed token. -/
theorem login_contract_witness :
    loginV1 compareDemo signDemo baseState (some "nobody@example.com")
      (some "x") = (baseState, LoginV1Result.invalid) ∧
    loginV1 compareDemo signDemo baseState (some "ada@example.com")
      (some "wrong") = (baseState, LoginV1Result.invalid) ∧
    loginV1 compareDemo signDemo baseState (some "ada@example.com")
      (some "pw1") =
      (baseState, LoginV1Result.ok
        (signDemo { id := orgA.id, email := some orgA.email })
        { id := orgA.id, name := orgA.name, email := orgA.email,
          bio := orgA.bio }) ∧
    loginAttempts compareDemo signDemo baseState
      [(some "ada@example.com", some "wrong"),
       (some "ada@example.com", some "wrong")] = baseState ∧
    loginV2 compareDemo baseStateV2 "cy@example.com" "bad" =
      LoginV2Result.invalid := by
  have h1 := login_contract compareDemo signDemo baseState baseStateV2
    (some "nobody@example.com") (some "x") "cy@example.com" "bad"
  have h2 := login_contract compareDemo signDemo baseState baseStateV2
    (some "ada@example.com") (some "wrong") "cy@example.com" "bad"
  have h3 := login_contract compareDemo signDemo baseState baseStateV2
    (some "ada@example.com") (some "pw1") "cy@example.com" "bad"
  obtain ⟨hA1, _, hC1, _, _, _, hG1, _, _, _, _⟩ := h1
  obtain ⟨_, hB2, _, _, _, _, _, _, _, _, _⟩ := h2
  obtain ⟨_, _, _, _, hE3, _, _, _, _, _, _⟩ := h3
  refine ⟨hA1 (by decide) (by decide) (by decide),
    hB2 orgA (by decide) (by decide) (by decide) (by decide),
    hE3 orgA (by decide) (by decide) (by decide) (by decide),
    hC1 _, hG1 orgV2A (by decide) (by decide)⟩

end ProtestTracker

namespace ProtestTracker

/-- C6 counterexample: in the fixture store organizer 1 owns protests dated
10 and 20; the cited list-mine endpoint (`ORDER BY date DESC`) returns the
date-20 row first, so its output is not ordered non-decreasingly by
(date, time) as the claim asserts. -/
theorem listmine_ordering_counterexample :
    organizersIdProtestsV2 baseState 1 1 = [protB, protA] ∧
    protB.date = 20 ∧ protA.date = 10 ∧
    ¬ List.Sorted dateTimeLe (organizersIdProtestsV2 baseState 1 1) := by
  have heq : organizersIdProtestsV2 baseState 1 1 = [protB, protA] := by decide
  refine ⟨heq, rfl, rfl, ?_⟩
  rw [heq]
  intro h
  have h2 := (List.pairwise_cons.mp h).1 protA (List.mem_cons_self _ _)
  simp only [dateTimeLe, protA, protB] at h2
  omega

/-- C6 (amended): the public list is ordered non-decreasingly by
(date, time), and so is the first snapshot's own-protests listing; the
second snapshot's list-mine endpoint is instead ordered non-increasingly by
date alone. -/
theorem list_ordering (s : DbState) (uid tid pid1 : Nat) :
    List.Sorted viewDateTimeLe (getProtestsV1 s) ∧
    List.Sorted dateTimeLe (organizerProtestsV1 s uid) ∧
    List.Sorted dateDescLe (organizersIdProtestsV2 s tid pid1) := by
  refine ⟨?_, ?_, ?_⟩
  · have hs := List.sorted_insertionSort joinedLe (joinRows s)
    exact hs.map mapRow (fun a b hab => hab)
  · exact List.sorted_insertionSort dateTimeLe _
  · exact List.sorted_insertionSort dateDescLe _

/-- C9: in the public list mapping, a row with like count `L ≥ 0` is
rendered with `attendees = ⌊L * 3.5⌋ = (7 L) / 2` (integer division), and
`tags` is the stored tag list, defaulting to the empty list when the column
is `NULL`; every element of the response is the image of a joined row. -/
theorem list_mapping (r : Protest × Organizer) (L : Nat) (s : DbState)
    (v : ProtestView) :
    (r.1.likes = (L : Int) →
      (mapRow r).attendees = ((7 * L) / 2 : Nat)) ∧
    (mapRow r).tags = r.1.tags.getD [] ∧
    (r.1.tags = none → (mapRow r).tags = []) ∧
    (v ∈ getProtestsV1 s → ∃ jr ∈ joinRows s, v = mapRow jr) := by
  refine ⟨?_, rfl, ?_, ?_⟩
  · intro hL
    show Int.floor ((r.1.likes : Rat) * 3.5) = ((7 * L : Nat) / 2 : Nat)
    rw [hL]
    have hc : (((L : Int) : Rat)) * 3.5 = ((7 * L : Int) : Rat) / ((2 : Nat) : Rat) := by
      push_cast
      ring
    rw [hc, Rat.floor_intCast_div_natCast]
    omega
  · intro hnone
    show r.1.tags.getD [] = []
    rw [hnone]
    rfl
  · intro hv
    rcases List.mem_map.mp hv with ⟨jr, hjr, hme⟩
    exact ⟨jr,
      ((List.perm_insertionSort joinedLe (joinRows s)).mem_iff).mp hjr,
      hme.symm⟩

/-- Witness for C9 on the fixture store: the row with 3 likes renders 10
attendees (⌊3 × 3.5⌋), its `NULL` tag column renders as `[]`, and its view
is indeed in the public list response. -/
theorem list_mapping_witness :
    (mapRow (protA, orgA)).attendees = ((7 * 3) / 2 : Nat) ∧
    ((7 * 3) / 2 : Nat) = 10 ∧
    (mapRow (protA, orgA)).tags = [] ∧
    (∃ jr ∈ joinRows baseState, mapRow (protA, orgA) = mapRow jr) := by
  have h := list_mapping (protA, orgA) 3 baseState (mapRow (protA, orgA))
  exact ⟨h.1 rfl, by decide, h.2.2.1 rfl,
    h.2.2.2 (List.mem_map_of_mem mapRow (by decide))⟩

end ProtestTracker

namespace ProtestTracker

/-- Membership in the JSON rendering of a nullable text column. -/
theorem mem_optStr (d : String) (o : Option String) :
    d ∈ optStr o ↔ o = some d := by
  cases o <;> simp [optStr, eq_comm]

/-- C7 counterexample: the part_002 login succeeds and its organizer
payload carries the keys `followers`, `instagram`, `website`, `facebook` —
fields outside the claimed set `id, name, email, bio` — and no `token` key
exists; so the claim that every successful Register/Login response contains
only `id, name, email, bio` plus the token is false on this handler. -/
theorem response_fields_counterexample :
    loginV2 compareDemo baseStateV2 "cy@example.com" "pw3" =
      LoginV2Result.ok (stripPassword orgV2A) ∧
    "followers" ∈ loginV2OrganizerKeys ∧
    "followers" ∉ registerV1OrganizerKeys ∧ "followers" ≠ "token" ∧
    "token" ∉ loginV2TopKeys := by
  exact ⟨by decide, by decide, by decide, by decide, by decide⟩

/-- Joined rows come from the two tables. -/
theorem mem_joinRows (s : DbState) (pr : Protest × Organizer)
    (h : pr ∈ joinRows s) : pr.1 ∈ s.protests ∧ pr.2 ∈ s.organizers := by
  rcases List.mem_flatMap.mp h with ⟨p, hp, hpr⟩
  rcases List.mem_map.mp hpr with ⟨o, ho, hoe⟩
  cases hoe
  exact ⟨hp, (List.mem_filter.mp ho).1⟩

/-- A string in a public-list view is the owning organizer display name or
a string of the underlying protest row. -/
theorem protestViewStrings_mapRow (p : Protest) (o : Organizer) (d : String)
    (hd : d ∈ protestViewStrings (mapRow (p, o))) :
    d = o.name ∨ d ∈ protestStrings p := by
  simp only [protestViewStrings, mapRow, protestStrings, List.mem_append,
    List.mem_cons, List.not_mem_nil, or_false] at hd ⊢
  tauto

/-- C7 (amended): the password digest never appears in any response of any
handler.  Every SELECT / RETURNING uses a digest-free column list: the
register and login success bodies carry only the message, the token where
one is issued, and non-digest organizer columns; the organizer-profile
endpoints project explicit digest-free column lists; the protest list,
list-mine, update-RETURNING and create-RETURNING bodies draw only protest
columns (the protests table has no digest column) and the request body; the
like / follow, delete and analytics bodies carry only numbers and fixed
messages.  Stated uniformly: a string that is not among the non-digest data
feeding a response — in particular the stored digest, which is never
written to any of those positions — does not occur in that response. -/
theorem digest_never_in_responses (hash : String → String)
    (sign : TokenClaims → String) (compare : String → String → Bool)
    (s : DbState) (s2 : DbStateV2) (b : RegisterBody)
    (email password : Option String) (e pw : String)
    (oid oid2 uid pid tid pathId : Nat) (liked following : Bool)
    (bf : ProtestFields) (bs : ProtestFieldsStr)
    (cb : CreateBody) (cb2 : CreateBodyV2) (d : String) :
    (∀ st t o, registerV1 hash sign s b = (st, RegisterV1Result.created t o) →
      d = hash (b.password.getD "") →
      d ≠ "Registration successful" → d ≠ t → d ≠ o.name → d ≠ o.email →
      o.bio ≠ some d →
      d ∉ registerV1RespStrings "Registration successful" t o) ∧
    (∀ st i nm em,
      registerV2 hash s b = (st, RegisterV2Result.created i nm em) →
      d ≠ nm → d ≠ em → d ∉ registerV2RespStrings nm em) ∧
    (∀ org st t o,
      (s.organizers.filter (fun o2 => o2.email == email.getD "")).head? =
        some org →
      loginV1 compare sign s email password = (st, LoginV1Result.ok t o) →
      org.password_hash ≠ "Login successful" →
      (∀ c, org.password_hash ≠ sign c) →
      org.password_hash ≠ org.name → org.password_hash ≠ org.email →
      org.bio ≠ some org.password_hash →
      org.password_hash ∉ loginV1RespStrings "Login successful" t o) ∧
    (∀ row view,
      (s2.organizers.filter (fun o => o.email == e)).head? = some row →
      loginV2 compare s2 e pw = LoginV2Result.ok view →
      row.password ≠ "Login successful" → row.password ≠ row.name →
      row.password ≠ row.email → row.bio ≠ some row.password →
      row.instagram ≠ some row.password → row.website ≠ some row.password →
      row.facebook ≠ some row.password →
      row.password ∉ loginV2RespStrings "Login successful" view) ∧
    (∀ org prof, lookupOrganizer s oid = some org →
      getOrganizerById s oid = some prof →
      org.password_hash ≠ org.name → org.password_hash ≠ org.email →
      org.bio ≠ some org.password_hash →
      org.password_hash ∉ organizerProfileStrings prof) ∧
    (∀ row prof,
      (s2.organizers.filter (fun o => o.id == oid2)).head? = some row →
      getOrganizerByIdV2 s2 oid2 = some prof →
      row.password ≠ row.name → row.password ≠ row.email →
      row.bio ≠ some row.password → row.instagram ≠ some row.password →
      row.website ≠ some row.password → row.facebook ≠ some row.password →
      row.password ∉ organizerProfileV2Strings prof) ∧
    (d ∉ protestTableStrings s →
      (∀ p2 ∈ organizerProtestsV1 s uid, d ∉ protestStrings p2) ∧
      (∀ p2 ∈ organizersIdProtestsV2 s tid pathId, d ∉ protestStrings p2)) ∧
    (d ∉ protestTableStrings s → (∀ o2 ∈ s.organizers, d ≠ o2.name) →
      ∀ v ∈ getProtestsV1 s, d ∉ protestViewStrings v) ∧
    (∀ row0 st rows, lookupProtest s pid = some row0 →
      row0.organizer_id = some uid →
      putProtestV1 s uid pid bf = (st, UpdateResult.ok rows) →
      d ∉ protestFieldsStrings bf → ∀ p2 ∈ rows, d ∉ protestStrings p2) ∧
    (∀ st rows, putProtestV2 s uid pid bs = (st, UpdateResult.ok rows) →
      d ∉ protestFieldsStrStrings bs → ∀ p2 ∈ rows, d ∉ protestStrings p2) ∧
    (strFalsy cb.name = false → cb.date.isNone = false →
      cb.time.isNone = false →
      ∀ st row, createProtestV1 s uid cb = (st, CreateResult.created row) →
      d ∉ createBodyStrings cb → d ∉ protestStrings row) ∧
    (∀ nm la ln dt tm st row, cb2.name = some nm → cb2.lat = some la →
      cb2.lng = some ln → cb2.date = some dt → cb2.time = some tm →
      createProtestV2 s2 cb2 = (st, CreateV2Result.created row) →
      d ∉ createBodyV2Strings cb2 → d ∉ protestV2Strings row) ∧
    (d ∉ fixedMessages →
      d ∉ likeRespStrings (likeProtest s pid liked).2 ∧
      d ∉ followRespStrings (followOrganizer s oid following).2 ∧
      d ∉ deleteRespStrings (deleteProtestV1 s uid pid).2 ∧
      d ∉ analyticsStrings (analyticsV2 s tid pathId)) := by
  refine ⟨?_, ?_, ?_, ?_, ?_, ?_, ?_, ?_, ?_, ?_, ?_, ?_, ?_⟩
  · intro st t o hcall hd hm ht hn he hb
    intro hmem
    simp only [registerV1RespStrings, List.mem_append, List.mem_cons,
      List.not_mem_nil, or_false, mem_optStr] at hmem
    rcases hmem with ((h1 | h2 | h3 | h4) | h5)
    · exact hm h1
    · exact ht h2
    · exact hn h3
    · exact he h4
    · exact hb h5
  · intro st i nm em hcall h1 h2
    intro hmem
    simp only [registerV2RespStrings, List.mem_cons, List.not_mem_nil,
      or_false] at hmem
    rcases hmem with h | h
    · exact h1 h
    · exact h2 h
  · intro org st t o hsome hcall hm htok hn he hb
    by_cases hchk : (strFalsy email || strFalsy password) = true
    · simp only [loginV1] at hcall
      rw [if_pos hchk] at hcall
      simp at hcall
    · simp only [loginV1, hsome] at hcall
      rw [if_neg hchk] at hcall
      by_cases hc : compare (password.getD "") org.password_hash = true
      · rw [if_pos hc] at hcall
        simp only [Prod.mk.injEq, LoginV1Result.ok.injEq] at hcall
        obtain ⟨-, ht2, ho2⟩ := hcall
        subst ht2
        subst ho2
        intro hmem
        simp only [loginV1RespStrings, List.mem_append, List.mem_cons,
          List.not_mem_nil, or_false, mem_optStr] at hmem
        rcases hmem with ((h1 | h2 | h3 | h4) | h5)
        · exact hm h1
        · exact htok _ h2
        · exact hn h3
        · exact he h4
        · exact hb h5
      · rw [if_neg hc] at hcall
        simp at hcall
  · intro row view hsome hcall hm hn he hb hi hw hf
    have hview : view = stripPassword row := by
      rcases hc : compare pw row.password with _ | _
      · rw [loginV2, hsome] at hcall
        simp only [hc, Bool.false_eq_true, if_false] at hcall
        cases hcall
      · rw [loginV2, hsome] at hcall
        simp only [hc, if_true] at hcall
        cases hcall
        rfl
    subst hview
    intro hmem
    simp only [loginV2RespStrings, stripPassword, List.mem_append,
      List.mem_cons, List.not_mem_nil, or_false, mem_optStr] at hmem
    rcases hmem with ((((h1 | h2 | h3) | h4) | h5) | h6) | h7
    · exact hm h1
    · exact hn h2
    · exact he h3
    · exact hb h4
    · exact hi h5
    · exact hw h6
    · exact hf h7
  · intro org prof hl hprof hn he hb
    simp only [getOrganizerById, hl, Option.map_some', Option.some.injEq]
      at hprof
    subst hprof
    intro hmem
    simp only [organizerProfileStrings, profileOf, List.mem_append,
      List.mem_cons, List.not_mem_nil, or_false, mem_optStr] at hmem
    rcases hmem with (h1 | h2) | h3
    · exact hn h1
    · exact he h2
    · exact hb h3
  · intro row prof hsome hprof hn he hb hi hw hf
    simp only [getOrganizerByIdV2, hsome, Option.map_some', Option.some.injEq]
      at hprof
    subst hprof
    intro hmem
    simp only [organizerProfileV2Strings, profileV2Of, List.mem_append,
      List.mem_cons, List.not_mem_nil, or_false, mem_optStr] at hmem
    rcases hmem with ((((h1 | h2) | h3) | h4) | h5) | h6
    · exact hn h1
    · exact he h2
    · exact hb h3
    · exact hi h4
    · exact hw h5
    · exact hf h6
  · intro htab
    constructor
    · intro p2 hp2 hmem
      have hpm : p2 ∈ s.protests := by
        have h1 := (List.perm_insertionSort dateTimeLe
          (s.protests.filter
            (fun p => p.organizer_id == some uid))).mem_iff.mp hp2
        exact (List.mem_filter.mp h1).1
      exact htab (List.mem_flatMap.mpr ⟨p2, hpm, hmem⟩)
    · intro p2 hp2 hmem
      have hpm : p2 ∈ s.protests := by
        have h1 := (List.perm_insertionSort dateDescLe
          (s.protests.filter
            (fun p => p.organizer_id == some tid))).mem_iff.mp hp2
        exact (List.mem_filter.mp h1).1
      exact htab (List.mem_flatMap.mpr ⟨p2, hpm, hmem⟩)
  · intro htab hnames v hv hmem
    rcases List.mem_map.mp hv with ⟨pr, hpr, hve⟩
    have hpr2 : pr ∈ joinRows s :=
      (List.perm_insertionSort joinedLe (joinRows s)).mem_iff.mp hpr
    obtain ⟨hp, ho⟩ := mem_joinRows s pr hpr2
    subst hve
    rcases protestViewStrings_mapRow pr.1 pr.2 d hmem with h1 | h2
    · exact hnames pr.2 ho h1
    · exact htab (List.mem_flatMap.mpr ⟨pr.1, hp, h2⟩)
  · intro row0 st rows hl hown hcall hbd p2 hp2 hmem
    simp only [putProtestV1, hl] at hcall
    rw [if_neg (fun hcon => hcon hown)] at hcall
    simp only [Prod.mk.injEq, UpdateResult.ok.injEq] at hcall
    obtain ⟨-, hrows⟩ := hcall
    subst hrows
    have hfm : (s.protests.map (fun p =>
        if p.id == pid then applyUpdateV1 bf p else p)).filter
          (fun p => p.id == pid) =
        (s.protests.filter (fun p => p.id == pid)).map (applyUpdateV1 bf) :=
      filter_map_update s.protests (fun p => p.id == pid)
        (applyUpdateV1 bf) (fun a ha => ha)
    rw [hfm] at hp2
    rcases List.mem_map.mp hp2 with ⟨q, hq, hpe⟩
    rw [← hpe] at hmem
    exact hbd hmem
  · intro st rows hcall hbd p2 hp2 hmem
    simp only [putProtestV2, Prod.mk.injEq] at hcall
    obtain ⟨-, hmatch⟩ := hcall
    split at hmatch
    · simp at hmatch
    · simp only [UpdateResult.ok.injEq] at hmatch
      subst hmatch
      have hfm : (s.protests.map (fun p =>
          if p.id == pid && p.organizer_id == some uid then applyUpdateV2 bs p
          else p)).filter
            (fun p => p.id == pid && p.organizer_id == some uid) =
          (s.protests.filter
            (fun p => p.id == pid && p.organizer_id == some uid)).map
              (applyUpdateV2 bs) :=
        filter_map_update s.protests
          (fun p => p.id == pid && p.organizer_id == some uid)
          (applyUpdateV2 bs) (fun a ha => ha)
      rw [hfm] at hp2
      rcases List.mem_map.mp hp2 with ⟨q, hq, hpe⟩
      rw [← hpe] at hmem
      exact hbd hmem
  · intro hn hd2 ht2 st row hcall hbd
    have hcond : ¬((strFalsy cb.name || cb.date.isNone || cb.time.isNone) = true) := by
      simp [hn, hd2, ht2]
    simp only [createProtestV1] at hcall
    rw [if_neg hcond] at hcall
    simp only [Prod.mk.injEq, CreateResult.created.injEq] at hcall
    obtain ⟨-, hrow⟩ := hcall
    subst hrow
    intro hmem
    exact hbd hmem
  · intro nm la ln dt tm st row hnm hla hln hdt htm hcall hbd
    simp only [createProtestV2, hnm, hla, hln, hdt, htm] at hcall
    simp only [Prod.mk.injEq, CreateV2Result.created.injEq] at hcall
    obtain ⟨-, hrow⟩ := hcall
    subst hrow
    intro hmem
    simp only [createBodyV2Strings, hnm] at hbd
    exact hbd hmem
  · intro hmsg
    have hmNF : d ≠ "Protest not found" := fun hne => hmsg (by rw [hne]; decide)
    have hmONF : d ≠ "Organizer not found" := fun hne => hmsg (by rw [hne]; decide)
    have hmDel : d ≠ "Protest deleted successfully" := fun hne =>
      hmsg (by rw [hne]; decide)
    have hmOwn : d ≠ "You can only delete your own protests" := fun hne =>
      hmsg (by rw [hne]; decide)
    refine ⟨?_, ?_, ?_, ?_⟩
    · cases hr : (likeProtest s pid liked).2 <;>
        simp [likeRespStrings, hmNF]
    · cases hr : (followOrganizer s oid following).2 <;>
        simp [followRespStrings, hmONF]
    · cases hr : (deleteProtestV1 s uid pid).2 <;>
        simp [deleteRespStrings, hmNF, hmDel, hmOwn]
    · simp [analyticsStrings]

/-- Witness for the amended C7: on the fixture data the stored digests do
not occur in the register body, the part_002 login body, the organizer
profile body, the list-mine rows, or a like response. -/
theorem digest_never_in_responses_witness :
    hashDemo "pw9" ∉ registerV1RespStrings "Registration successful" "tok"
      { id := 3, name := "Ada", email := "new@example.com",
        bio := some "hi" } ∧
    orgV2A.password ∉ loginV2RespStrings "Login successful"
      (stripPassword orgV2A) ∧
    orgA.password_hash ∉ organizerProfileStrings (profileOf orgA) ∧
    "hashed.pw1" ∉ protestStrings protA ∧
    "hashed.pw1" ∉ likeRespStrings (likeProtest baseState 1 true).2 := by
  have h9 := digest_never_in_responses hashDemo (fun _ => "tok") compareDemo
    baseState baseStateV2 regBodyA (some "ada@example.com") (some "pw1")
    "cy@example.com" "pw3" 1 1 1 1 1 1 true true updBody updBodyStr
    createBodyA createBodyV2 (hashDemo "pw9")
  have h1 := digest_never_in_responses hashDemo (fun _ => "tok") compareDemo
    baseState baseStateV2 regBodyA (some "ada@example.com") (some "pw1")
    "cy@example.com" "pw3" 1 1 1 1 1 1 true true updBody updBodyStr
    createBodyA createBodyV2 "hashed.pw1"
  obtain ⟨c1, -, -, c4, c5, -, -, -, -, -, -, -, -⟩ := h9
  obtain ⟨-, -, -, -, -, -, d7, -, -, -, -, -, d13⟩ := h1
  refine ⟨?_, ?_, ?_, ?_, ?_⟩
  · exact c1 (registerV1 hashDemo (fun _ => "tok") baseState regBodyA).1
      "tok"
      { id := 3, name := "Ada", email := "new@example.com", bio := some "hi" }
      (by decide) rfl (by decide) (by decide)
      (by decide) (by decide) (by decide)
  · exact c4 orgV2A (stripPassword orgV2A) (by decide) (by decide)
      (by decide) (by decide) (by decide) (by decide) (by decide) (by decide)
      (by decide)
  · exact c5 orgA (profileOf orgA) (by decide) (by decide) (by decide)
      (by decide) (by decide)
  · exact (d7 (by decide)).1 protA (by decide)
  · exact (d13 (by decide)).1

end ProtestTracker

namespace ProtestTracker

/-- C8 counterexample: the part_002 create handler — whose route carries no
authentication middleware and which never reads a token — inserts the
`organizer_id` sent in the request body: with body value 7 the inserted row
is owned by 7, which differs from (for instance) a caller token id of 1;
so the claim that every create inserts the callers token id regardless of
the body fails on this handler. -/
theorem create_body_owner_counterexample :
    createBodyV2.organizer_id = some 7 ∧
    ((createProtestV2 baseStateV2 createBodyV2).1.protests.map
      (fun p => p.organizer_id)) = [some 7] ∧
    some (7 : Nat) ≠ some 1 := by
  exact ⟨rfl, by decide, by decide⟩

/-- C8 (amended): the authenticated first-snapshot create inserts with the
token id as owner whatever `organizer_id` the body carries, and rejects a
request missing `name`, `date` or `time` with 400, inserting nothing.  The
part_002 create instead copies `organizer_id` from the body, performs no
field validation, and a body missing the `NOT NULL` column `name` makes the
insert fail with the catch-block 500, inserting nothing. -/
theorem create_owner_contract (s : DbState) (s2 : DbStateV2) (uid : Nat)
    (b : CreateBody) (b2 : CreateBodyV2) :
    (strFalsy b.name = false → b.date.isNone = false → b.time.isNone = false →
      ∃ row, createProtestV1 s uid b =
        ({ s with
            protests := s.protests ++ [row],
            nextProtestId := s.nextProtestId + 1 },
          CreateResult.created row) ∧
        row.organizer_id = some uid) ∧
    (∀ oid, createProtestV1 s uid { b with organizer_id := oid } =
      createProtestV1 s uid b) ∧
    (strFalsy b.name = true ∨ b.date = none ∨ b.time = none →
      createProtestV1 s uid b = (s, CreateResult.missingFields)) ∧
    (∀ nm la ln d t, b2.name = some nm → b2.lat = some la → b2.lng = some ln →
      b2.date = some d → b2.time = some t →
      ∃ row, createProtestV2 s2 b2 =
        ({ s2 with
            protests := s2.protests ++ [row],
            nextProtestId := s2.nextProtestId + 1 },
          CreateV2Result.created row) ∧
        row.organizer_id = b2.organizer_id) ∧
    (b2.name = none →
      createProtestV2 s2 b2 = (s2, CreateV2Result.serverError)) := by
  refine ⟨?_, ?_, ?_, ?_, ?_⟩
  · intro hn hd ht
    have hcond : ¬((strFalsy b.name || b.date.isNone || b.time.isNone) = true) := by
      simp [hn, hd, ht]
    simp only [createProtestV1]
    rw [if_neg hcond]
    exact ⟨_, rfl, rfl⟩
  · intro oid
    rfl
  · intro h
    have hcond : (strFalsy b.name || b.date.isNone || b.time.isNone) = true := by
      rcases h with h | h | h <;> simp [h]
    simp only [createProtestV1]
    rw [if_pos hcond]
  · intro nm la ln d t hnm hla hln hd ht
    simp only [createProtestV2, hnm, hla, hln, hd, ht]
    exact ⟨_, rfl, rfl⟩
  · intro hnm
    simp only [createProtestV2, hnm]

/-- Witness for the amended C8 on the fixture data. -/
theorem create_owner_contract_witness :
    (∃ row, createProtestV1 baseState 1 createBodyA =
      ({ baseState with
          protests := baseState.protests ++ [row],
          nextProtestId := baseState.nextProtestId + 1 },
        CreateResult.created row) ∧
      row.organizer_id = some 1) ∧
    createProtestV1 baseState 1 { createBodyA with name := none } =
      (baseState, CreateResult.missingFields) ∧
    (∃ row, createProtestV2 baseStateV2 createBodyV2 =
      ({ baseStateV2 with
          protests := baseStateV2.protests ++ [row],
          nextProtestId := baseStateV2.nextProtestId + 1 },
        CreateV2Result.created row) ∧
      row.organizer_id = createBodyV2.organizer_id) ∧
    createProtestV2 baseStateV2 { createBodyV2 with name := none } =
      (baseStateV2, CreateV2Result.serverError) := by
  have h1 := create_owner_contract baseState baseStateV2 1 createBodyA
    createBodyV2
  have h2 := create_owner_contract baseState baseStateV2 1
    { createBodyA with name := none } { createBodyV2 with name := none }
  exact ⟨h1.1 (by decide) (by decide) (by decide),
    h2.2.2.1 (Or.inl (by decide)),
    h1.2.2.2.1 "March" 1 2 10 100 rfl rfl rfl rfl rfl,
    h2.2.2.2.2 rfl⟩

/-- C10: the authenticated organizer-scoped listing and analytics endpoints
compute their responses from the organizer id decoded from the presented
token only; two requests with the same token and different `:id` path
parameters produce identical responses. -/
theorem path_id_ignored (s : DbState) (tokenId a b : Nat) :
    organizersIdProtestsV2 s tokenId a = organizersIdProtestsV2 s tokenId b ∧
    analyticsV2 s tokenId a = analyticsV2 s tokenId b :=
  ⟨rfl, rfl⟩

end ProtestTracker
